import Mathlib

/-!
Shallow embedding of the `happi audit` validation pipeline
(`src/happi/audit.py`) and proofs about its stage functions.

Python records are modelled per stage by small structures carrying exactly
the fields that stage reads.  External collaborators that live outside the
audited sources (the container registry lookup, the dynamic-import
primitive, the template filler, the configuration lookup) are modelled as
explicit parameters or, where their behaviour decides a claim, as
definitions modelled from the specification and marked as such.
-/

/-- The closed enumeration of per-check outcomes (`ReportCode` in
`audit.py`): SUCCESS, INVALID, MISSING, EXTRAS and the uninitialized
sentinel NO_CODE. -/
inductive ReportCode
  | SUCCESS
  | INVALID
  | MISSING
  | EXTRAS
  | NO_CODE
deriving DecidableEq

/-- The value a stage function can actually hand back in the Python code:
a single report code, the tuple of two codes produced by the failing
importation branch, the accumulated module-name set returned by
`get_device_class`, or Python's implicit `None`. -/
inductive StageResult
  | code (c : ReportCode)
  | pair (c₁ c₂ : ReportCode)
  | devices (s : Finset String)
  | pyNone
deriving DecidableEq

/-- Python truthiness of an optional string field: `None` and the empty
string are falsy, every other string is truthy. -/
def pyTruthy : Option String → Bool
  | none => false
  | some s => decide (s ≠ "")

/-- Characters of a string up to (excluding) the first `'.'`;
the whole string when no dot occurs. -/
def takeUntilDot : List Char → List Char
  | [] => []
  | c :: cs => if c = '.' then [] else c :: takeUntilDot cs

/-- `device_class.rsplit('.')[0]`: the top-level module name, i.e. the
part of the dotted path before the first separator. -/
def topModule (s : String) : String := String.mk (takeUntilDot s.data)

/-- `'.' in s`: whether the class path contains a module/class separator. -/
def hasDot (s : String) : Bool := decide ('.' ∈ s.data)

/-- Membership test `container in registry` for an optional field value
against the registry's container-type names. -/
def opt_mem (c : Option String) (reg : List String) : Bool :=
  match c with
  | none => false
  | some s => decide (s ∈ reg)

/-- The fields of a record read by `validate_container`. -/
structure CItem where
  type? : Option String
  name? : Option String
deriving DecidableEq

/-- `Audit.validate_container` (audit.py lines 151-166): INVALID when the
`type` field is truthy but not a registered container name, MISSING when
it is falsy (absent or empty), SUCCESS otherwise.  The registry is the
external schema registry, consulted only through membership. -/
def validate_container (registry : List String) (item : CItem) : StageResult :=
  if pyTruthy item.type? && !(opt_mem item.type? registry) then .code .INVALID
  else if !(pyTruthy item.type?) then .code .MISSING
  else .code .SUCCESS

/-- The fields of a record read by the class-resolver stages. -/
structure Item where
  name? : Option String
  device_class? : Option String
deriving DecidableEq

/-- The pipeline state mutated by `get_device_class`
(`Audit.__init__`, audit.py lines 76-77): the accumulated set of
top-level module names (`_all_devices`) and the list of records whose
class path referenced one of them (`_all_items`). -/
structure AuditState where
  all_devices : Finset String
  all_items : List Item
deriving DecidableEq

/-- `Audit.get_device_class` (audit.py lines 190-213): MISSING for a falsy
`device_class`; INVALID when `rsplit('.', 1)` cannot be unpacked (no
separator); otherwise it adds the top-level module to `_all_devices`,
appends the record to `_all_items`, and returns the mutated module set
itself (not a report code).  Returned as (result, new state). -/
def get_device_class (st : AuditState) (item : Item) : StageResult × AuditState :=
  if !(pyTruthy item.device_class?) then (.code .MISSING, st)
  else if !(hasDot (item.device_class?.getD "")) then (.code .INVALID, st)
  else
    let package := topModule (item.device_class?.getD "")
    let st' : AuditState :=
      { all_devices := insert package st.all_devices
        all_items := st.all_items ++ [item] }
    (.devices st'.all_devices, st')

/-- The module-discovery pass of `parse_database` (audit.py lines
407-410): `get_device_class` folded over the whole record collection. -/
def run_discovery (st : AuditState) (items : List Item) : AuditState :=
  items.foldl (fun s it => (get_device_class s it).2) st

/-- A record qualifies for discovery when its `device_class` is truthy
and contains a separator: exactly then `get_device_class` records it. -/
def qualifies (it : Item) : Bool :=
  pyTruthy it.device_class? && hasDot (it.device_class?.getD "")

/-- The top-level module names contributed by a record collection. -/
def discovered_mods (items : List Item) : Finset String :=
  (items.filter qualifies).foldr
    (fun it acc => insert (topModule (it.device_class?.getD "")) acc) ∅

/-- `Audit.validate_import_class` (audit.py lines 215-244): MISSING for a
falsy `device_class`; INVALID when it has no separator; for a confirmed
top-level module, SUCCESS when the dynamic import resolves and the tuple
(INVALID, MISSING) when it raises; INVALID for a truthy unconfirmed
module; Python's implicit `None` for an empty unconfirmed module name.
The dynamic-import primitive (external, `happi.loader.import_class`) is
the oracle `importOk`. -/
def validate_import_class (importOk : String → Bool) (st : AuditState)
    (item : Item) : StageResult :=
  if !(pyTruthy item.device_class?) then .code .MISSING
  else if !(hasDot (item.device_class?.getD "")) then .code .INVALID
  else
    let m := topModule (item.device_class?.getD "")
    if m ∈ st.all_devices then
      if importOk (item.device_class?.getD "") then .code .SUCCESS
      else .pair .INVALID .MISSING
    else if m ≠ "" then .code .INVALID
    else .pyNone

/-- The reserved metadata keys (`extr_list` in
`validate_extra_attributes`, audit.py line 351). -/
def extr_list : List String := ["creation", "last_edit", "_id", "type"]

/-- The views of a record read by `validate_extra_attributes`: its field
keys in dictionary order (the values are never inspected by the check)
and its schema's declared field keys in order (`entry_info`). -/
structure XItem where
  keys : List String
  entry_info : List String
deriving DecidableEq

/-- `Audit.validate_extra_attributes` (audit.py lines 346-364): builds
`attr_list` by zipping the record's items with the schema descriptors
(so it holds only the first `min(#fields, #descriptors)` schema keys),
then reports EXTRAS when (record keys − attr_list − reserved keys) is
non-empty, SUCCESS otherwise. -/
def validate_extra_attributes (item : XItem) : StageResult :=
  let attr_list := (item.keys.zip item.entry_info).map Prod.snd
  let diff := item.keys.filter
    (fun k => decide (¬ k ∈ attr_list ∧ ¬ k ∈ extr_list))
  if diff ≠ [] then .code .EXTRAS else .code .SUCCESS

/-- A schema field descriptor: only its `key` is read by this pipeline;
its enforcement rule is consulted through the `enforceOk` oracle. -/
structure EntryInfo where
  key : String
deriving DecidableEq

/-- A container schema: its ordered field descriptors. -/
structure Container where
  entry_info : List EntryInfo
deriving DecidableEq

/-- Modelled from the spec: the schema-registry lookup
`registry[item.get('type')]` lives in `happi.containers`, which is not
among the audited sources.  Section 4.5 requires that `validate_enforce`
"returns MISSING if the schema cannot be resolved for this record (no
container)", so the lookup is modelled as yielding no container for an
unset or unregistered type name. -/
def registry_get (reg : List (String × Container)) :
    Option String → Option Container
  | none => none
  | some s => (reg.find? (fun p => decide (p.1 = s))).map Prod.snd

/-- The fields of a record read by `validate_enforce`: its `type`, its
`name` and its ordered key/value pairs (values opaque, modelled by Nat). -/
structure EItem where
  type? : Option String
  name? : Option String
  pairs : List (String × Nat)
deriving DecidableEq

/-- `Audit.get_value` (audit.py lines 298-301): the first value stored
under the descriptor's key, Python `None` when no key matches. -/
def get_value (info : EntryInfo) (item : EItem) : Option Nat :=
  (item.pairs.find? (fun p => decide (p.1 = info.key))).map Prod.snd

/-- `Audit.validate_enforce` (audit.py lines 303-322): MISSING when no
container can be resolved for the record's `type`; otherwise the loop
over the schema descriptors returns on its first iteration — SUCCESS
when the first descriptor's enforcement accepts the stored value,
INVALID when it raises — and falls through to Python's implicit `None`
when the schema has no descriptors.  The per-descriptor enforcement
rule is the oracle `enforceOk`. -/
def validate_enforce (reg : List (String × Container))
    (enforceOk : EntryInfo → Option Nat → Bool) (item : EItem) : StageResult :=
  match registry_get reg item.type? with
  | some container =>
    match container.entry_info with
    | [] => .pyNone
    | info :: _ =>
      if enforceOk info (get_value info item) then .code .SUCCESS
      else .code .INVALID
  | none => .code .MISSING

/-- An argument value: a string (subject to template filling) or a
non-string literal. -/
inductive AVal
  | s (x : String)
  | o (n : Nat)
deriving DecidableEq

/-- The fields of a record read by the args/kwargs stage. -/
structure AItem where
  name? : Option String
  args : List AVal
  kwargs : List (String × AVal)
deriving DecidableEq

/-- `Audit.create_arg` (audit.py lines 181-188): non-strings pass through
unchanged, strings go through `fill_template(..., enforce_type=True)`.
Modelled from the spec: `fill_template` lives in `happi.loader`, not
among the audited sources; section 4.2 treats substitution/coercion
failure as an exception the orchestrator must handle, so the filler is
the fallible oracle `fill`. -/
def create_arg (fill : String → AItem → Except String AVal)
    (item : AItem) (arg : AVal) : Except String AVal :=
  match arg with
  | .o n => .ok (.o n)
  | .s t => fill t item

/-- `Audit.validate_args` (audit.py lines 168-172): the list
comprehension over `item.args`; the first exception propagates. -/
def validate_args (fill : String → AItem → Except String AVal)
    (item : AItem) : Except String (List AVal) :=
  item.args.mapM (create_arg fill item)

/-- `Audit.validate_kwargs` (audit.py lines 174-179): the generator over
`item.kwargs`; the first exception propagates. -/
def validate_kwargs (fill : String → AItem → Except String AVal)
    (item : AItem) : Except String (List (String × AVal)) :=
  item.kwargs.mapM (fun kv => (create_arg fill item kv.2).map (fun v => (kv.1, v)))

/-- The args/kwargs loop of `parse_database` (audit.py lines 391-400):
per record, `validate_args` and `validate_kwargs` run OUTSIDE the
`try` block — their exceptions propagate and abort the stage — while the
subsequent class construction runs inside it and any of its outcomes
lets the loop continue.  Construction is the oracle `construct`. -/
def args_stage (fill : String → AItem → Except String AVal)
    (construct : AItem → List AVal → List (String × AVal) → Except String Unit) :
    List AItem → Except String Unit
  | [] => .ok ()
  | item :: rest =>
    match validate_args fill item with
    | .error e => .error e
    | .ok args =>
      match validate_kwargs fill item with
      | .error e => .error e
      | .ok kwargs =>
        match construct item args kwargs with
        | _ => args_stage fill construct rest

/-- A template filler that raises on every string argument: the concrete
substitution-failure scenario of section 4.2. -/
def fail_fill : String → AItem → Except String AVal :=
  fun _ _ => .error "template substitution failed"

/-- A class construction that always succeeds. -/
def ok_construct : AItem → List AVal → List (String × AVal) → Except String Unit :=
  fun _ _ _ => .ok ()

/-- The external inputs of `Audit.run` / `Audit.process_args` (audit.py
lines 90-133): the `--file` argument, the configuration file located by
`Client.find_config`, the `path` entry read from it (`.error` when
`config.get` raises), the `os.path.isfile` probe, the `--extras` flag,
the record collection the Record Store loads from the database at a
given path, and the template-filler and class-construction oracles the
args/kwargs stage consults on those records. -/
structure Env where
  file : Option String
  find_config : Option String
  config_path : Except String String
  isfile : String → Bool
  extras : Bool
  load_items : String → List AItem
  fill : String → AItem → Except String AVal
  construct : AItem → List AVal → List (String × AVal) → Except String Unit

/-- Exit code of `Audit.process_args` (audit.py lines 118-133): 1
(`sys.exit(1)`) when the database path is not a regular file; otherwise
the pipeline runs — `check_extra_attributes` under `--extras` (its
per-record checks return codes and do not raise in this embedding),
`parse_database` otherwise.  Nothing in `process_args` or `run` catches
an exception escaping `parse_database`, and this embedding's one
uncaught-exception source there is the args/kwargs loop
(`args_stage`): when it raises, the interpreter dies with the traceback
— exit status 1; a normal completion exits 0. -/
def process_args_exit (env : Env) (path : String) : Nat :=
  if env.isfile path then
    if env.extras then 0
    else
      match args_stage env.fill env.construct (env.load_items path) with
      | .ok _ => 0
      | .error _ => 1
  else 1

/-- Exit code of `Audit.run` (audit.py lines 90-116): an explicit
`--file` goes straight to `process_args`; otherwise a missing
configuration file exits 1, a configuration file whose `path` entry
cannot be read logs the error and returns normally (exit 0), and a read
path goes to `process_args`. -/
def run_exit (env : Env) : Nat :=
  match env.file with
  | some f => process_args_exit env f
  | none =>
    match env.find_config with
    | none => 1
    | some _ =>
      match env.config_path with
      | .error _ => 0
      | .ok p => process_args_exit env p

/-- The database path the command ends up probing: the explicit `--file`
when given, else the configuration's `path` entry when readable. -/
def db_path (env : Env) : Option String :=
  match env.file with
  | some f => some f
  | none =>
    match env.find_config with
    | none => none
    | some _ =>
      match env.config_path with
      | .ok p => some p
      | .error _ => none

theorem zip_map_snd {α β : Type} :
    ∀ (a : List α) (b : List β), (a.zip b).map Prod.snd = b.take a.length
  | [], _ => by simp
  | _ :: _, [] => by simp
  | _ :: xs, _ :: ys => by simp [zip_map_snd xs ys]

theorem has_dot_ne_empty (s : String) (h : hasDot s = true) : s ≠ "" := by
  intro he
  subst he
  exact absurd h (by decide)

/-- C10: for every record whose `type` field is present but equal to the
empty string, `validate_container` returns MISSING (the absent-container
outcome) rather than INVALID, regardless of the registry's contents. -/
theorem c10_empty_type_missing (registry : List String) (item : CItem)
    (h : item.type? = some "") :
    validate_container registry item = .code .MISSING := by
  simp [validate_container, h, pyTruthy]

/-- C10 witness: the empty-type record against the empty registry. -/
theorem c10_witness :
    validate_container [] ⟨some "", none⟩ = .code .MISSING :=
  c10_empty_type_missing [] ⟨some "", none⟩ rfl

/-- C5: for every record whose `type` is absent (so its container schema
cannot be resolved), `validate_enforce` returns MISSING. -/
theorem c5_enforce_missing_schema (reg : List (String × Container))
    (enforceOk : EntryInfo → Option Nat → Bool) (item : EItem)
    (h : item.type? = none) :
    validate_enforce reg enforceOk item = .code .MISSING := by
  simp [validate_enforce, h, registry_get]

/-- C5 witness: a record with no `type` against the empty registry. -/
theorem c5_witness :
    validate_enforce [] (fun _ _ => true) ⟨none, none, []⟩ = .code .MISSING :=
  c5_enforce_missing_schema [] (fun _ _ => true) ⟨none, none, []⟩ rfl

/-- C2 counterexample: a record whose `type` field is set (to the empty
string) and does not name a schema in the registry, yet
`validate_container` returns MISSING, not the INVALID the claim
requires. -/
theorem c2_counterexample :
    validate_container [] ⟨some "", none⟩ = .code .MISSING
    ∧ (Option.some "").isSome = true
    ∧ ¬ "" ∈ ([] : List String)
    ∧ StageResult.code .MISSING ≠ StageResult.code .INVALID := by
  refine ⟨?_, rfl, by decide, by decide⟩
  decide

/-- C2 amended: `validate_container` returns INVALID iff `type` is set to
a non-empty string that does not name a schema in the registry; MISSING
iff `type` is absent or set to the empty string; SUCCESS iff `type` is a
non-empty registered name. -/
theorem c2_amended_container_trichotomy (registry : List String) (item : CItem) :
    (validate_container registry item = .code .INVALID ↔
      ∃ s, item.type? = some s ∧ s ≠ "" ∧ ¬ s ∈ registry)
    ∧ (validate_container registry item = .code .MISSING ↔
      (item.type? = none ∨ item.type? = some ""))
    ∧ (validate_container registry item = .code .SUCCESS ↔
      ∃ s, item.type? = some s ∧ s ≠ "" ∧ s ∈ registry) := by
  obtain ⟨t, n⟩ := item
  cases t with
  | none => simp [validate_container, pyTruthy, opt_mem]
  | some s =>
    by_cases hs : s = ""
    · subst hs
      simp [validate_container, pyTruthy, opt_mem]
    · by_cases hm : s ∈ registry
      · simp [validate_container, pyTruthy, opt_mem, hs, hm]
      · simp [validate_container, pyTruthy, opt_mem, hs, hm]

/-- C6: the code contradicts the stated failure policy — a substitution
failure for one argument of one record propagates out of the args/kwargs
loop of `parse_database` (the `try` there only wraps class construction),
aborting validation of the remaining records: with a filler that raises
on the first record's only argument, the stage ends with that exception
and the second record is never validated. -/
theorem c6_substitution_failure_aborts :
    args_stage fail_fill ok_construct
      [⟨some "d1", [.s "tmpl"], []⟩, ⟨some "d2", [], []⟩]
      = .error "template substitution failed" := rfl

/-- C9 counterexample: with no explicit `--file`, a configuration file
that is found, and a `path` entry that cannot be read (so no resolvable
configured database path exists), `Audit.run` logs the error and returns
normally — exit code 0 — where the claim requires the fatal exit code 1. -/
theorem c9_counterexample :
    run_exit ⟨none, some "happi.cfg", .error "no path entry", fun _ => false,
        false, fun _ => [], fun _ _ => .ok (.o 0), fun _ _ _ => .ok ()⟩ = 0
    ∧ (0 : Nat) ≠ 1 := by
  exact ⟨rfl, by decide⟩

theorem process_args_exit_eq_one (env : Env) (p : String) :
    process_args_exit env p = 1 ↔
      (env.isfile p = false
        ∨ (env.extras = false
            ∧ ∃ e, args_stage env.fill env.construct (env.load_items p)
                = .error e)) := by
  simp only [process_args_exit]
  by_cases h : env.isfile p
  · rw [if_pos h]
    cases hext : env.extras with
    | true => simp [h, hext]
    | false =>
      cases hres : args_stage env.fill env.construct (env.load_items p) with
      | ok u => simp [h, hext, hres]
      | error e => simp [h, hext, hres]
  · rw [if_neg h]
    rw [Bool.not_eq_true] at h
    simp [h]

/-- C9 amended: the audit command exits 1 exactly when either no `--file`
is given and no configuration file can be found, or a database path was
obtained (explicitly or from the configuration's `path` entry) and
either it is not a regular file or the full validation sequence runs
over it (`--extras` absent) and an argument substitution/coercion
failure propagates uncaught out of the args/kwargs stage, crashing the
process; when the configuration file is found but its `path` entry
cannot be read, the command logs the error and exits 0.  Validation
findings themselves never change the exit code. -/
theorem c9_amended_exit_code (env : Env) :
    run_exit env = 1 ↔
      ((env.file = none ∧ env.find_config = none)
        ∨ (∃ p, db_path env = some p
            ∧ (env.isfile p = false
              ∨ (env.extras = false
                  ∧ ∃ e, args_stage env.fill env.construct (env.load_items p)
                      = .error e)))) := by
  rcases hf : env.file with _ | f
  · rcases hc : env.find_config with _ | c
    · simp [run_exit, db_path, hf, hc]
    · rcases hp : env.config_path with e | p
      · simp [run_exit, db_path, hf, hc, hp]
      · simp only [run_exit, db_path, hf, hc, hp]
        rw [process_args_exit_eq_one]
        simp [hf]
  · simp only [run_exit, db_path, hf]
    rw [process_args_exit_eq_one]
    simp [hf]

/-- C3 counterexample: a record with the single field key `b` whose
schema declares the keys `a` and `b`.  The claimed set difference
(record keys − schema keys − reserved keys) is empty, so the claim
requires SUCCESS, but the code zips the record's one item with the
schema descriptors, compares `b` against `a` alone, and reports
EXTRAS. -/
theorem c3_counterexample :
    validate_extra_attributes ⟨["b"], ["a", "b"]⟩ = .code .EXTRAS
    ∧ List.filter (fun k => decide (¬ k ∈ (["a", "b"] : List String) ∧ ¬ k ∈ extr_list)) ["b"] = []
    ∧ StageResult.code .EXTRAS ≠ StageResult.code .SUCCESS := by
  refine ⟨by decide, by decide, by decide⟩

/-- C3 amended: `validate_extra_attributes` returns EXTRAS iff the set
difference (record's field keys) minus (the first min(#record fields,
#schema descriptors) of the schema's declared keys — the zip with the
record's items truncates to the shorter list) minus the reserved set is
non-empty, and SUCCESS otherwise. -/
theorem c3_amended_extras_iff (item : XItem) :
    (validate_extra_attributes item = .code .EXTRAS ↔
      ∃ k, k ∈ item.keys ∧ ¬ k ∈ item.entry_info.take item.keys.length
        ∧ ¬ k ∈ extr_list)
    ∧ (validate_extra_attributes item = .code .SUCCESS ↔
      ¬ ∃ k, k ∈ item.keys ∧ ¬ k ∈ item.entry_info.take item.keys.length
        ∧ ¬ k ∈ extr_list) := by
  have hz : (item.keys.zip item.entry_info).map Prod.snd
      = item.entry_info.take item.keys.length := zip_map_snd _ _
  simp only [validate_extra_attributes]
  rw [hz]
  have hiff : (item.keys.filter
      (fun k => decide (¬ k ∈ item.entry_info.take item.keys.length
        ∧ ¬ k ∈ extr_list)) ≠ [])
      ↔ ∃ k, k ∈ item.keys ∧ ¬ k ∈ item.entry_info.take item.keys.length
          ∧ ¬ k ∈ extr_list := by
    rw [Ne, List.filter_eq_nil_iff]
    push_neg
    constructor
    · rintro ⟨k, hk, hp⟩
      exact ⟨k, hk, by simpa using hp⟩
    · rintro ⟨k, hk, h1, h2⟩
      exact ⟨k, hk, by simp [h1, h2]⟩
  by_cases h : item.keys.filter
      (fun k => decide (¬ k ∈ item.entry_info.take item.keys.length
        ∧ ¬ k ∈ extr_list)) = []
  · rw [if_neg (fun hne => hne h)]
    refine ⟨⟨fun hc => absurd hc (by decide), fun hex => absurd h (hiff.mpr hex)⟩,
      ⟨fun _ hex => absurd h (hiff.mpr hex), fun _ => rfl⟩⟩
  · rw [if_pos h]
    refine ⟨⟨fun _ => hiff.mp h, fun _ => rfl⟩,
      ⟨fun hc => absurd hc (by decide), fun hno => absurd (hiff.mp h) hno⟩⟩

/-- C8 counterexample: a record with the single field key `b` and schema
keys `a`, `b` yields EXTRAS, but appending the reserved key `type` to the
record lets the zip reach the second schema key `b`, and the result
changes to SUCCESS. -/
theorem c8_counterexample :
    validate_extra_attributes ⟨["b"], ["a", "b"]⟩ = .code .EXTRAS
    ∧ validate_extra_attributes ⟨["b", "type"], ["a", "b"]⟩ = .code .SUCCESS
    ∧ "type" ∈ extr_list
    ∧ StageResult.code .EXTRAS ≠ StageResult.code .SUCCESS := by
  decide

/-- C8 amended: for a record that already has at least as many fields as
its schema declares descriptors (so the zip truncation already covers
every schema key), appending any key from the reserved metadata set never
changes the result of `validate_extra_attributes`. -/
theorem c8_amended_reserved_key (item : XItem) (k : String)
    (hk : k ∈ extr_list)
    (hlen : item.entry_info.length ≤ item.keys.length) :
    validate_extra_attributes ⟨item.keys ++ [k], item.entry_info⟩
      = validate_extra_attributes item := by
  simp only [validate_extra_attributes]
  rw [zip_map_snd, zip_map_snd]
  have h2 : item.entry_info.take (item.keys ++ [k]).length = item.entry_info :=
    List.take_of_length_le (by simp only [List.length_append]; omega)
  have h1 : item.entry_info.take item.keys.length = item.entry_info :=
    List.take_of_length_le hlen
  rw [h2, h1, List.filter_append]
  have h3 : List.filter
      (fun x => decide (¬ x ∈ item.entry_info ∧ ¬ x ∈ extr_list)) [k] = [] := by
    simp [hk]
  rw [h3, List.append_nil]

/-- C8 witness: appending the reserved key `type` to a record whose
field count matches its schema leaves the result unchanged. -/
theorem c8_witness :
    validate_extra_attributes ⟨["name", "type"], ["name"]⟩
      = validate_extra_attributes ⟨["name"], ["name"]⟩ :=
  c8_amended_reserved_key ⟨["name"], ["name"]⟩ "type" (by decide) (by decide)

theorem gdc_state (st : AuditState) (it : Item) :
    (get_device_class st it).2 =
      if qualifies it then
        { all_devices := insert (topModule (it.device_class?.getD "")) st.all_devices
          all_items := st.all_items ++ [it] }
      else st := by
  unfold get_device_class qualifies
  by_cases h1 : pyTruthy it.device_class? <;>
    by_cases h2 : hasDot (it.device_class?.getD "") <;>
      simp [h1, h2]

theorem discovered_mods_cons (it : Item) (rest : List Item) :
    discovered_mods (it :: rest) =
      if qualifies it then
        insert (topModule (it.device_class?.getD "")) (discovered_mods rest)
      else discovered_mods rest := by
  by_cases h : qualifies it <;> simp [discovered_mods, List.filter_cons, h]

theorem run_discovery_devices :
    ∀ (items : List Item) (st : AuditState),
      (run_discovery st items).all_devices = st.all_devices ∪ discovered_mods items
  | [], st => by simp [run_discovery, discovered_mods]
  | it :: rest, st => by
    have hstep : run_discovery st (it :: rest)
        = run_discovery ((get_device_class st it).2) rest := rfl
    rw [hstep, run_discovery_devices rest _, gdc_state, discovered_mods_cons]
    by_cases h : qualifies it
    · simp only [h, if_true]
      ext x
      simp only [Finset.mem_union, Finset.mem_insert]
      tauto
    · simp [h]

theorem run_discovery_items :
    ∀ (items : List Item) (st : AuditState),
      (run_discovery st items).all_items = st.all_items ++ items.filter qualifies
  | [], st => by simp [run_discovery]
  | it :: rest, st => by
    have hstep : run_discovery st (it :: rest)
        = run_discovery ((get_device_class st it).2) rest := rfl
    rw [hstep, run_discovery_items rest _, gdc_state, List.filter_cons]
    by_cases h : qualifies it
    · simp [h]
    · simp [h]

/-- C7 counterexample: running module discovery a second time over the
one-record collection `device_class = "a.B"` does not leave the Pipeline
State unchanged — `_all_devices` stays `{a}` but the record is appended
to `_all_items` again. -/
theorem c7_counterexample :
    run_discovery (run_discovery ⟨∅, []⟩ [⟨some "d1", some "a.B"⟩])
        [⟨some "d1", some "a.B"⟩]
      ≠ run_discovery ⟨∅, []⟩ [⟨some "d1", some "a.B"⟩] := by
  decide

/-- C7 amended: re-running module discovery over the same record
collection leaves the set of top-level module names unchanged, but
appends each qualifying record (truthy `device_class` containing a
separator) to the record list again; only the module-set component of
the Pipeline State is idempotent. -/
theorem c7_amended_discovery (st : AuditState) (items : List Item) :
    (run_discovery (run_discovery st items) items).all_devices
        = (run_discovery st items).all_devices
    ∧ (run_discovery (run_discovery st items) items).all_items
        = (run_discovery st items).all_items ++ items.filter qualifies := by
  constructor
  · rw [run_discovery_devices items (run_discovery st items),
        run_discovery_devices items st, Finset.union_assoc, Finset.union_self]
  · exact run_discovery_items items (run_discovery st items)

/-- C1 counterexample: the record `device_class = ".X"` contains a
separator, its top-level module (the empty string) is not in the
confirmed set, and `validate_import_class` falls through both branches
and returns Python's implicit `None` — not the INVALID the claim
requires for every record whose top-level module is unconfirmed. -/
theorem c1_counterexample :
    validate_import_class (fun _ => true) ⟨∅, []⟩ ⟨some "d1", some ".X"⟩
        = StageResult.pyNone
    ∧ hasDot ".X" = true
    ∧ ¬ topModule ".X" ∈ (∅ : Finset String)
    ∧ StageResult.pyNone ≠ StageResult.code .INVALID := by
  decide

/-- C1 amended: for a record whose `device_class` contains a separator,
`validate_import_class` returns SUCCESS when the top-level module is
confirmed and the dynamic import resolves, the pair (INVALID, MISSING)
when it is confirmed and the import fails, INVALID — independently of
any import attempt — when the top-level module is unconfirmed and
non-empty, and no report code (Python `None`) when it is unconfirmed
and empty (a class path beginning with the separator). -/
theorem c1_amended_import_pass (importOk : String → Bool) (st : AuditState)
    (item : Item) (dc : String)
    (hdc : item.device_class? = some dc) (hdot : hasDot dc = true) :
    (topModule dc ∈ st.all_devices →
        validate_import_class importOk st item =
          (if importOk dc then .code .SUCCESS else .pair .INVALID .MISSING))
    ∧ (¬ topModule dc ∈ st.all_devices → topModule dc ≠ "" →
        validate_import_class importOk st item = .code .INVALID)
    ∧ (¬ topModule dc ∈ st.all_devices → topModule dc = "" →
        validate_import_class importOk st item = .pyNone) := by
  have hne : dc ≠ "" := has_dot_ne_empty dc hdot
  have h1 : pyTruthy (some dc) = true := by simp [pyTruthy, hne]
  refine ⟨fun hm => ?_, fun hm hne' => ?_, fun hm heq => ?_⟩
  · simp [validate_import_class, hdc, h1, hdot, hm]
  · simp [validate_import_class, hdc, h1, hdot, hm, hne']
  · rw [heq] at hm
    simp [validate_import_class, hdc, h1, hdot, heq, hm]

/-- C1 witness: the confirmed module `a` with the resolvable class path
`a.B` yields SUCCESS. -/
theorem c1_witness :
    validate_import_class (fun _ => true) ⟨{"a"}, []⟩ ⟨some "d1", some "a.B"⟩
      = .code .SUCCESS := by
  have h := (c1_amended_import_pass (fun _ => true) ⟨{"a"}, []⟩
      ⟨some "d1", some "a.B"⟩ "a.B" rfl (by decide)).1 (by decide)
  simpa using h

/-- C4 counterexample: on a record with the well-formed class path
`a.B`, `get_device_class` returns the accumulated module-name set — a
free-form object distinct from every Report Code value. -/
theorem c4_counterexample :
    (get_device_class ⟨∅, []⟩ ⟨some "d1", some "a.B"⟩).1
        = StageResult.devices {"a"}
    ∧ StageResult.devices {"a"} ≠ StageResult.code .SUCCESS
    ∧ StageResult.devices {"a"} ≠ StageResult.code .INVALID
    ∧ StageResult.devices {"a"} ≠ StageResult.code .MISSING
    ∧ StageResult.devices {"a"} ≠ StageResult.code .EXTRAS
    ∧ StageResult.devices {"a"} ≠ StageResult.code .NO_CODE := by
  decide

/-- C4 amended: `validate_container` and `validate_extra_attributes`
always return a Report Code; `get_device_class` returns either a Report
Code or the accumulated module-name set; `validate_import_class` returns
either a Report Code, the pair (INVALID, MISSING), or no value (Python
`None`); `validate_enforce` returns either a Report Code or no value
(when the resolved schema declares no descriptors). -/
theorem c4_amended_result_shapes :
    (∀ (registry : List String) (item : CItem),
      ∃ c, validate_container registry item = .code c)
    ∧ (∀ (item : XItem), ∃ c, validate_extra_attributes item = .code c)
    ∧ (∀ (st : AuditState) (item : Item),
      (∃ c, (get_device_class st item).1 = .code c)
      ∨ (get_device_class st item).1
          = .devices (get_device_class st item).2.all_devices)
    ∧ (∀ (importOk : String → Bool) (st : AuditState) (item : Item),
      (∃ c, validate_import_class importOk st item = .code c)
      ∨ validate_import_class importOk st item = .pair .INVALID .MISSING
      ∨ validate_import_class importOk st item = .pyNone)
    ∧ (∀ (reg : List (String × Container))
        (enforceOk : EntryInfo → Option Nat → Bool) (item : EItem),
      (∃ c, validate_enforce reg enforceOk item = .code c)
      ∨ validate_enforce reg enforceOk item = .pyNone) := by
  refine ⟨?_, ?_, ?_, ?_, ?_⟩
  · intro registry item
    simp only [validate_container]
    split
    · exact ⟨.INVALID, rfl⟩
    · split
      · exact ⟨.MISSING, rfl⟩
      · exact ⟨.SUCCESS, rfl⟩
  · intro item
    simp only [validate_extra_attributes]
    split
    · exact ⟨.EXTRAS, rfl⟩
    · exact ⟨.SUCCESS, rfl⟩
  · intro st item
    simp only [get_device_class]
    split
    · exact Or.inl ⟨.MISSING, rfl⟩
    · split
      · exact Or.inl ⟨.INVALID, rfl⟩
      · exact Or.inr rfl
  · intro importOk st item
    simp only [validate_import_class]
    split
    · exact Or.inl ⟨.MISSING, rfl⟩
    · split
      · exact Or.inl ⟨.INVALID, rfl⟩
      · split
        · split
          · exact Or.inl ⟨.SUCCESS, rfl⟩
          · exact Or.inr (Or.inl rfl)
        · split
          · exact Or.inl ⟨.INVALID, rfl⟩
          · exact Or.inr (Or.inr rfl)
  · intro reg enforceOk item
    simp only [validate_enforce]
    split
    · split
      · exact Or.inr rfl
      · split
        · exact Or.inl ⟨.SUCCESS, rfl⟩
        · exact Or.inl ⟨.INVALID, rfl⟩
    · exact Or.inl ⟨.MISSING, rfl⟩
